import Mathlib

/-!
Verification of the service-order phase state machine and payment ledger of
the `backend_rg` repository (`service_control/models.py` and
`service_control/api_views.py`), as a shallow embedding.

Money fields (`DecimalField(decimal_places=2)`) are modelled as integers
(cents), which renders Python `Decimal` arithmetic exactly.  Dates and
datetimes are modelled as integers (day / instant numbers); only their
ordering matters.  Python `None` becomes `Option.none`; Python truthiness of
a `Decimal` is `≠ 0`, of a string is `≠ ""`.
-/

/-- The fixed catalog of phase names (`ServiceOrderPhase` rows). -/
inductive Phase where
  | PENDENTE
  | EM_PRODUCAO
  | AGUARDANDO_RETIRADA
  | AGUARDANDO_DEVOLUCAO
  | FINALIZADO
  | RECUSADA
  | ATRASADO
  deriving DecidableEq, Repr

/-- `Event` model: only `event_date` matters to the core logic. -/
structure EventE where
  event_date : Option Int
  deriving DecidableEq, Repr

/-- One ledger entry of `ServiceOrder.payment_details`:
`{amount, forma_pagamento, tipo, data}`. -/
structure PaymentEntry where
  amount : Int
  forma_pagamento : String
  tipo : String
  data : Int
  deriving DecidableEq, Repr

/-- `TemporaryProduct` model (fields written by the update endpoint). -/
structure TemporaryProduct where
  product_type : String
  size : Option String
  sleeve_length : Option String
  color : Option String
  brand : Option String
  description : Option String
  venda : Bool
  extensor : Bool
  waist_size : Option String
  leg_length : Option String
  ajuste_cintura : Option String
  ajuste_comprimento : Option String
  deriving DecidableEq, Repr

/-- `ServiceOrderItem` model: one line item of an order. -/
structure OrderItem where
  temporary_product : Option TemporaryProduct
  product : Option Nat
  adjustment_needed : Bool
  adjustment_notes : Option String
  deriving DecidableEq, Repr

/-- `ServiceOrder` model (`service_control/models.py`), restricted to the
fields read or written by the transitions under verification.  Foreign keys
`employee`/`attendant` are the referenced person ids. -/
structure Order where
  order_date : Int
  service_order_phase : Option Phase
  total_value : Option Int
  advance_payment : Option Int
  remaining_payment : Option Int
  payment_method : Option String
  payment_details : Option (List PaymentEntry)
  renter_role : Option String
  came_from : Option String
  purchase : Bool
  service_type : Option String
  employee : Option Nat
  attendant : Option Nat
  event : Option EventE
  prova_date : Option Int
  retirada_date : Option Int
  devolucao_date : Option Int
  production_date : Option Int
  data_retirado : Option Int
  data_devolvido : Option Int
  data_finalizado : Option Int
  justification_refusal : Option String
  esta_atrasada : Bool
  is_virtual : Bool
  items : List OrderItem
  deriving DecidableEq, Repr

/-- `ServiceOrder.save` (models.py lines 131-135): before persisting,
recompute `remaining_payment = total_value - advance_payment` whenever both
operands are non-null. -/
def saveOrder (o : Order) : Order :=
  match o.total_value, o.advance_payment with
  | some t, some a => { o with remaining_payment := some (t - a) }
  | _, _ => o

/-- The person resolved from `request.user` (`user_person`), with its
`person_type.type` string. -/
structure PersonRef where
  id : Nat
  person_type : String
  deriving DecidableEq, Repr

/-- Caller identity: `getattr(request.user, "person", None)`. -/
structure UserCtx where
  person : Option PersonRef
  deriving DecidableEq, Repr

/-- The role guard shared by the transition endpoints: admin, or the order's
`employee`, or the order's `attendant`. -/
def authorized (u : UserCtx) (o : Order) : Bool :=
  match u.person with
  | none => false
  | some p =>
    p.person_type = "ADMINISTRADOR" || o.employee = some p.id || o.attendant = some p.id

/-- Python `x or y` on a nullable `Decimal` `x`: `x` when non-null and
non-zero, else `y`. -/
def pyOrD (x : Option Int) (y : Int) : Int :=
  match x with
  | some v => if v = 0 then y else v
  | none => y

/-- One element of the `payment_forms` list of the mark-retrieved payload. -/
structure PaymentForm where
  amount : Int
  forma_pagamento : String
  deriving DecidableEq, Repr

/-- Validated `ServiceOrderMarkRetrievedSerializer` payload. -/
structure MarkRetrievedInput where
  receive_remaining_payment : Bool
  remaining_amount : Option Int
  payment_forms : List PaymentForm
  deriving DecidableEq, Repr

/-- `sum(Decimal(item["amount"]) for item in payment_forms)`. -/
def sumAmounts (fs : List PaymentForm) : Int :=
  (fs.map PaymentForm.amount).sum

/-- The target amount of the mark-retrieved sum check (api_views.py line
1353): `data.get("remaining_amount") or service_order.remaining_payment or
Decimal("0")`. -/
def remainingTarget (inp : MarkRetrievedInput) (o : Order) : Int :=
  pyOrD inp.remaining_amount (pyOrD o.remaining_payment 0)

/-- The `formas_pagamento` accumulator of the mark-retrieved loop: collect
each form's method, skipping ones already collected. -/
def dedupAux (acc : List String) : List PaymentForm → List String
  | [] => acc
  | f :: fs =>
    if f.forma_pagamento ∈ acc then dedupAux acc fs
    else dedupAux (acc ++ [f.forma_pagamento]) fs

/-- Methods of a `payment_forms` list, first occurrences only, in order. -/
def dedupFormas (fs : List PaymentForm) : List String :=
  dedupAux [] fs

/-- Merge of the new methods string into `payment_method` (api_views.py lines
1385-1389): append after the old string when the old string is truthy. -/
def mergeMethods (old : Option String) (formas : List String) : String :=
  let s := String.intercalate ", " formas
  match old with
  | some t => if t = "" then s else t ++ ", " ++ s
  | none => s

/-- A `"restante"` ledger entry built at retrieval time. -/
def restanteEntry (now : Int) (f : PaymentForm) : PaymentEntry :=
  { amount := f.amount, forma_pagamento := f.forma_pagamento,
    tipo := "restante", data := now }

/-- The `receive_remaining_payment` block of
`ServiceOrderMarkRetrievedAPIView.post` (api_views.py lines 1352-1389):
check the sum of `payment_forms` against the target, then append the ledger
entries, increment `advance_payment` and merge the payment methods.  Errors
leave the order untouched. -/
def applyRemainingPayment (now : Int) (inp : MarkRetrievedInput) (o : Order) :
    Except String Order :=
  if inp.receive_remaining_payment = false then Except.ok o
  else if inp.payment_forms = [] then
    Except.error "payment_forms e obrigatorio quando receive_remaining_payment e True"
  else if sumAmounts inp.payment_forms ≠ remainingTarget inp o then
    Except.error "Total dos pagamentos nao corresponde ao valor restante"
  else
    Except.ok { o with
      advance_payment := some (pyOrD o.advance_payment 0 + sumAmounts inp.payment_forms),
      payment_details :=
        some (o.payment_details.getD [] ++ inp.payment_forms.map (restanteEntry now)),
      payment_method := some (mergeMethods o.payment_method (dedupFormas inp.payment_forms)) }

/-- `ServiceOrderMarkRetrievedAPIView.post` (api_views.py lines 1282-1393):
phase guards, role guard, optional remaining-payment receipt, then move to
`AGUARDANDO_DEVOLUCAO`, stamp `data_retirado = now` and save. -/
def markRetrieved (u : UserCtx) (now : Int) (inp : MarkRetrievedInput) (o : Order) :
    Except String Order :=
  match o.service_order_phase with
  | none => Except.error "OS nao possui fase definida."
  | some ph =>
    if ph = Phase.AGUARDANDO_DEVOLUCAO then
      Except.error "OS ja esta aguardando devolucao."
    else if ph = Phase.FINALIZADO then
      Except.error "OS ja esta finalizada."
    else if ¬ (ph = Phase.EM_PRODUCAO ∨ ph = Phase.AGUARDANDO_RETIRADA) then
      Except.error "OS deve estar na fase EM_PRODUCAO ou AGUARDANDO_RETIRADA para ser marcada como retirada."
    else if authorized u o = false then
      Except.error "Apenas o atendente responsavel, recepcionista ou um administrador pode marcar uma OS como retirada."
    else
      match applyRemainingPayment now inp o with
      | Except.error e => Except.error e
      | Except.ok o2 =>
        Except.ok (saveOrder { o2 with
          service_order_phase := some Phase.AGUARDANDO_DEVOLUCAO,
          data_retirado := some now })

/-- The database state after a mark-retrieved call: the returned order on
success, the untouched original on any rejection (all error returns in the
handler precede every mutation and the save). -/
def markRetrievedState (u : UserCtx) (now : Int) (inp : MarkRetrievedInput)
    (o : Order) : Order :=
  match markRetrieved u now inp o with
  | Except.ok o' => o'
  | Except.error _ => o

/-- `ServiceOrderMarkPaidAPIView.post` (api_views.py lines 1037-1090):
reject when phase is unset, already `FINALIZADO`, or not
`AGUARDANDO_DEVOLUCAO`; then the role guard; on success move to
`FINALIZADO`, stamp `data_devolvido = now`, `data_finalizado = today`,
and save. -/
def markPaid (u : UserCtx) (now today : Int) (o : Order) : Except String Order :=
  match o.service_order_phase with
  | none => Except.error "OS nao possui fase definida."
  | some ph =>
    if ph = Phase.FINALIZADO then
      Except.error "OS ja esta finalizada."
    else if ph ≠ Phase.AGUARDANDO_DEVOLUCAO then
      Except.error "OS deve estar na fase AGUARDANDO_DEVOLUCAO para ser marcada como paga."
    else if authorized u o = false then
      Except.error "Apenas o atendente responsavel, recepcionista ou um administrador pode marcar uma OS como paga."
    else
      Except.ok (saveOrder { o with
        service_order_phase := some Phase.FINALIZADO,
        data_devolvido := some now,
        data_finalizado := some today })

/-- Database state after a mark-paid call (original order on rejection). -/
def markPaidState (u : UserCtx) (now today : Int) (o : Order) : Order :=
  match markPaid u now today o with
  | Except.ok o' => o'
  | Except.error _ => o

/-- An order with neutral field values, the base of the concrete samples. -/
def baseOrder : Order :=
  { order_date := 0, service_order_phase := some Phase.PENDENTE,
    total_value := some 0, advance_payment := some 0,
    remaining_payment := some 0, payment_method := none,
    payment_details := none, renter_role := none, came_from := none,
    purchase := false, service_type := none, employee := none,
    attendant := none, event := none, prova_date := none,
    retirada_date := none, devolucao_date := none, production_date := none,
    data_retirado := none, data_devolvido := none, data_finalizado := none,
    justification_refusal := none, esta_atrasada := false,
    is_virtual := false, items := [] }

/-- An administrator caller. -/
def userAdmin : UserCtx := { person := some { id := 1, person_type := "ADMINISTRADOR" } }

/-- A concrete order in `EM_PRODUCAO` with an open balance of 600.00. -/
def orderProducao : Order :=
  { baseOrder with
    service_order_phase := some Phase.EM_PRODUCAO,
    total_value := some 100000, advance_payment := some 40000,
    remaining_payment := some 60000, payment_method := some "pix" }

/-- A concrete order awaiting devolution. -/
def orderAguardandoDev : Order :=
  { baseOrder with service_order_phase := some Phase.AGUARDANDO_DEVOLUCAO }

/-- A mark-retrieved payload whose forms sum to 900.00 against a declared
remaining amount of 1000.00. -/
def inpMismatch : MarkRetrievedInput :=
  { receive_remaining_payment := true, remaining_amount := some 100000,
    payment_forms := [{ amount := 90000, forma_pagamento := "pix" }] }

/-- Does the order have a linked event whose date is set and already past
(`event__event_date__lt=today`)?  Null events and null event dates fail the
comparison, exactly as the SQL `<` does. -/
def eventDateLt (today : Int) (o : Order) : Bool :=
  match o.event with
  | some ev => match ev.event_date with
    | some d => decide (d < today)
    | none => false
  | none => false

/-- Linked event with a date still in the future (`event__event_date__gt`). -/
def eventDateGt (today : Int) (o : Order) : Bool :=
  match o.event with
  | some ev => match ev.event_date with
    | some d => decide (today < d)
    | none => false
  | none => false

/-- Phases the auto-refuse sweep selects (`service_order_phase__name__in`,
api_views.py lines 2542-2548). -/
def sweepPhases : List Phase :=
  [Phase.PENDENTE, Phase.EM_PRODUCAO, Phase.AGUARDANDO_DEVOLUCAO,
   Phase.FINALIZADO, Phase.AGUARDANDO_RETIRADA]

/-- The `overdue_orders` filter of `move_to_refused_if_event_passed`
(api_views.py lines 2539-2550): linked event date passed, never retrieved,
phase among `sweepPhases` (which already excludes `RECUSADA` and the null
phase). -/
def sweepQualifies (today : Int) (o : Order) : Bool :=
  eventDateLt today o && decide (o.data_retirado = none) &&
    (match o.service_order_phase with
     | some ph => decide (ph ∈ sweepPhases)
     | none => false)

/-- Effect of the sweep on one order (api_views.py lines 2552-2555): move to
`RECUSADA` with the fixed justification and save; others untouched. -/
def sweepOrder (today : Int) (o : Order) : Order :=
  if sweepQualifies today o then
    saveOrder { o with
      service_order_phase := some Phase.RECUSADA,
      justification_refusal := some "Cliente não retirou o produto" }
  else o

/-- The persistent store visible to the listing endpoint: the order rows plus
the presence of the lazily created `ServiceOrderPhase` rows the endpoint
looks up with `filter(...).first()`. -/
structure SystemState where
  orders : List Order
  recusadaExists : Bool
  aguardandoDevolucaoExists : Bool
  aguardandoRetiradaExists : Bool
  deriving DecidableEq, Repr

/-- `move_to_refused_if_event_passed` (api_views.py lines 2531-2561): a no-op
when no `RECUSADA` phase row exists, otherwise rewrite every qualifying
order. -/
def runSweep (today : Int) (s : SystemState) : SystemState :=
  if s.recusadaExists then { s with orders := s.orders.map (sweepOrder today) }
  else s

/-- `devolucao_date__lt=today` (null date fails). -/
def devolucaoDateLt (today : Int) (o : Order) : Bool :=
  match o.devolucao_date with
  | some d => decide (d < today)
  | none => false

/-- The two `Q` branches of the `ATRASADO` listing (api_views.py lines
2580-2594).  When no `AGUARDANDO_DEVOLUCAO` phase row exists,
`filter(service_order_phase=None)` matches the null phase instead. -/
def atrasadoQ (adExists : Bool) (today : Int) (o : Order) : Bool :=
  let phaseMatch : Bool :=
    if adExists then decide (o.service_order_phase = some Phase.AGUARDANDO_DEVOLUCAO)
    else decide (o.service_order_phase = none)
  (phaseMatch && devolucaoDateLt today o && eventDateGt today o)
    || (phaseMatch && decide (o.data_devolvido = none) && eventDateLt today o)

/-- The full `ATRASADO` listing (`ServiceOrderListByPhaseAPIView.get` with
`phase.name == "ATRASADO"`): run the sweep, then filter the non-virtual
orders by the two overdue branches.  No write-back happens in this branch. -/
def listAtrasado (today : Int) (s : SystemState) : List Order :=
  ((runSweep today s).orders).filter
    (fun o => !o.is_virtual && atrasadoQ s.aguardandoDevolucaoExists today o)

/-- `retirada_date` truthy and `< today` (api_views.py line 2663). -/
def retiradaDateLt (today : Int) (o : Order) : Bool :=
  match o.retirada_date with
  | some d => decide (d < today)
  | none => false

/-- Lateness of an `AGUARDANDO_RETIRADA` order (api_views.py lines
2660-2673): pickup date passed, or linked event date passed and the order
was never retrieved. -/
def retiradaLate (today : Int) (o : Order) : Bool :=
  retiradaDateLt today o || (eventDateLt today o && decide (o.data_retirado = none))

/-- Flag write-back for one listed order (api_views.py lines 2675-2678):
save only when the recomputed flag differs.  Only non-virtual orders in
`AGUARDANDO_RETIRADA` are listed. -/
def retiradaWriteback (today : Int) (o : Order) : Order :=
  if !o.is_virtual && decide (o.service_order_phase = some Phase.AGUARDANDO_RETIRADA) then
    (if o.esta_atrasada ≠ retiradaLate today o then
      saveOrder { o with esta_atrasada := retiradaLate today o }
    else o)
  else o

/-- State effect of `ListByPhase("AGUARDANDO_RETIRADA")`: the sweep always
runs first; the write-back loop runs only when the phase lookup succeeds
(otherwise the endpoint 404s after the sweep). -/
def listRetiradaState (today : Int) (s : SystemState) : SystemState :=
  let s1 := runSweep today s
  if s.aguardandoRetiradaExists then
    { s1 with orders := s1.orders.map (retiradaWriteback today) }
  else s1

/-- One element of the update payload's `itens` list (keys read by the
update endpoint, api_views.py lines 575-612). -/
structure ItemPayload where
  tipo : String
  numero : Option String
  manga : Option String
  cor : Option String
  marca : Option String
  extras : Option String
  venda : Bool
  ajuste : Option String
  cintura : Option String
  perna : Option String
  ajuste_cintura : Option String
  ajuste_comprimento : Option String
  deriving DecidableEq, Repr

/-- One element of the update payload's `acessorios` list (lines 615-640). -/
structure AcessorioPayload where
  tipo : String
  numero : Option String
  cor : Option String
  marca : Option String
  descricao : Option String
  extensor : Bool
  venda : Bool
  deriving DecidableEq, Repr

/-- `clean_field`: `None` stays `None`; strings are stripped and empty
results become `None`. -/
def cleanField : Option String → Option String
  | none => none
  | some s => if s.trim = "" then none else some s.trim

/-- The `TemporaryProduct` created for an `itens` entry (lines 583-604);
trouser measurements are only set when `tipo == "calca"`. -/
def buildTempFromIten (it : ItemPayload) : TemporaryProduct :=
  { product_type := it.tipo,
    size := cleanField it.numero,
    sleeve_length := cleanField it.manga,
    color := cleanField it.cor,
    brand := cleanField it.marca,
    description := cleanField it.extras,
    venda := it.venda,
    extensor := false,
    waist_size := if it.tipo = "calca" then cleanField it.cintura else none,
    leg_length := if it.tipo = "calca" then cleanField it.perna else none,
    ajuste_cintura := if it.tipo = "calca" then cleanField it.ajuste_cintura else none,
    ajuste_comprimento := if it.tipo = "calca" then cleanField it.ajuste_comprimento else none }

/-- The `ServiceOrderItem` created for an `itens` entry (lines 607-613). -/
def buildItemFromIten (it : ItemPayload) : OrderItem :=
  { temporary_product := some (buildTempFromIten it),
    product := none,
    adjustment_needed := (cleanField it.ajuste).isSome,
    adjustment_notes := cleanField it.ajuste }

/-- The `TemporaryProduct` created for an `acessorios` entry (lines 624-633). -/
def buildTempFromAcessorio (a : AcessorioPayload) : TemporaryProduct :=
  { product_type := a.tipo,
    size := cleanField a.numero,
    sleeve_length := none,
    color := cleanField a.cor,
    brand := cleanField a.marca,
    description := cleanField a.descricao,
    venda := a.venda,
    extensor := a.extensor,
    waist_size := none, leg_length := none, ajuste_cintura := none,
    ajuste_comprimento := none }

/-- The `ServiceOrderItem` created for an `acessorios` entry (lines 636-640). -/
def buildItemFromAcessorio (a : AcessorioPayload) : OrderItem :=
  { temporary_product := some (buildTempFromAcessorio a),
    product := none,
    adjustment_needed := false,
    adjustment_notes := none }

/-- One entry of the update payload's `pagamento.sinal.pagamentos` list. -/
structure SinalPag where
  forma_pagamento : Option String
  amount : Int
  deriving DecidableEq, Repr

/-- `pagamento.sinal`: either a breakdown dict or a plain number. -/
inductive SinalData where
  | dict (total : Option Int) (pagamentos : Option (List SinalPag))
  | num (v : Int)
  deriving DecidableEq, Repr

/-- The update payload's `pagamento` dict (keys read at lines 367-402). -/
structure PagamentoData where
  total : Option Int
  sinal : Option SinalData
  forma_pagamento : Option String
  deriving DecidableEq, Repr

/-- The update payload's `ordem_servico` dict: `Option` marks key absence. -/
structure OsData where
  data_retirada : Option Int
  data_devolucao : Option Int
  data_prova : Option Int
  ocasiao : Option String
  origem : Option String
  modalidade : Option String
  employee_id : Option Nat
  pagamento : Option PagamentoData
  itens : Option (List ItemPayload)
  acessorios : Option (List AcessorioPayload)
  deriving DecidableEq, Repr

/-- The update payload's `cliente` dict, restricted to the CPF that the
endpoint validates (the person-directory merge is an external collaborator). -/
structure ClienteData where
  cpf : Option String
  deriving DecidableEq, Repr

/-- Validated `FrontendServiceOrderUpdateSerializer` payload. -/
structure UpdatePatch where
  ordem_servico : Option OsData
  cliente : Option ClienteData
  deriving DecidableEq, Repr

/-- Ambient data of an update call: existing person ids, today's date, and
whether an `EM_PRODUCAO` phase row exists (looked up with
`filter(...).first()`, line 655). -/
structure UpdateCtx where
  persons : List Nat
  today : Int
  emProducaoExists : Bool
  deriving DecidableEq, Repr

/-- The `formas` accumulator of the sinal loop (lines 382-387): truthy
methods, first occurrences only. -/
def sinalFormas (pags : List SinalPag) : List String :=
  pags.foldl (fun acc p =>
    match p.forma_pagamento with
    | some f => if f = "" then acc else if f ∈ acc then acc else acc ++ [f]
    | none => acc) []

/-- The fresh `payment_details` list of the sinal loop (lines 388-393),
dated with the order's creation date. -/
def sinalDetails (order_date : Int) (pags : List SinalPag) : List PaymentEntry :=
  pags.foldl (fun acc p =>
    match p.forma_pagamento with
    | some f =>
      if f = "" then acc
      else acc ++ [{ amount := p.amount, forma_pagamento := f, tipo := "sinal",
                     data := order_date }]
    | none => acc) []

/-- The sinal-dict branch of the payment block (lines 375-397): optional
total into `advance_payment`; when a non-empty `pagamentos` list is present,
rebuild `payment_method` and REPLACE `payment_details` wholesale. -/
def applySinalDict (o : Order) (total : Option Int)
    (pagamentos : Option (List SinalPag)) : Order :=
  let oa := match total with
    | some t => { o with advance_payment := some t }
    | none => o
  match pagamentos with
  | some pags =>
    if pags ≠ [] then
      let formas := sinalFormas pags
      let details := sinalDetails oa.order_date pags
      let ob :=
        if formas ≠ [] then
          { oa with payment_method := some (String.intercalate ", " formas) }
        else oa
      if details ≠ [] then { ob with payment_details := some details } else ob
    else oa
  | none => oa

/-- The `sinal` value: breakdown dict or plain number (line 398). -/
def applySinal (o : Order) : SinalData → Order
  | SinalData.dict total pagamentos => applySinalDict o total pagamentos
  | SinalData.num v => { o with advance_payment := some v }

/-- `pagamento.total` into `total_value` (lines 370-371). -/
def applyPagTotal (o : Order) (pg : PagamentoData) : Order :=
  match pg.total with
  | some t => { o with total_value := some t }
  | none => o

/-- The optional `sinal` key (lines 373-399). -/
def applyPagSinal (o : Order) (pg : PagamentoData) : Order :=
  match pg.sinal with
  | some sd => applySinal o sd
  | none => o

/-- The truthy `forma_pagamento` override (lines 401-402). -/
def applyPagForma (o : Order) (pg : PagamentoData) : Order :=
  match pg.forma_pagamento with
  | some f => if f ≠ "" then { o with payment_method := some f } else o
  | none => o

/-- The `pagamento` block of the update endpoint (lines 367-402): total,
then the sinal (replacing the breakdown wholesale), then an explicit
`forma_pagamento` override. -/
def applyPagamento (o : Order) (pg : PagamentoData) : Order :=
  applyPagForma (applyPagSinal (applyPagTotal o pg) pg) pg

/-- `applyPagamento` under an optional `pagamento` key. -/
def applyPagamentoOpt (o : Order) (pg : Option PagamentoData) : Order :=
  match pg with
  | some p => applyPagamento o p
  | none => o

/-- The milestone-date assignments of the update endpoint (lines 325-330). -/
def applyDates (osd : OsData) (o : Order) : Order :=
  let o1 := match osd.data_retirada with
    | some d => { o with retirada_date := some d }
    | none => o
  let o2 := match osd.data_devolucao with
    | some d => { o1 with devolucao_date := some d }
    | none => o1
  match osd.data_prova with
  | some d => { o2 with prova_date := some d }
  | none => o2

/-- `ocasiao`, `origem` and `modalidade` handling (lines 333-352). -/
def applyBasics (osd : OsData) (o : Order) : Order :=
  let o1 := match osd.ocasiao with
    | some s => if s ≠ "" then { o with renter_role := some s.toUpper } else o
    | none => o
  let o2 := match osd.origem with
    | some s => if s ≠ "" then { o1 with came_from := some s.toUpper } else o1
    | none => o1
  match osd.modalidade with
  | some m =>
    let o3 :=
      if m = "Compra" then { o2 with purchase := true }
      else if m = "Aluguel" then { o2 with purchase := false }
      else if m = "Aluguel + Venda" then { o2 with purchase := false }
      else if m = "Venda" then { o2 with purchase := true }
      else o2
    { o3 with service_type := some m }
  | none => o2

/-- The `ordem_servico` block of the update endpoint (lines 322-402): dates,
labels, modalidade, the assigned employee (rejecting an unknown id, line
360), then the payment block. -/
def applyOsData (ctx : UpdateCtx) (osd : OsData) (o : Order) : Except String Order :=
  let o1 := applyBasics osd (applyDates osd o)
  match osd.employee_id with
  | some eid =>
    if eid ≠ 0 then
      if eid ∈ ctx.persons then
        Except.ok (applyPagamentoOpt { o1 with employee := some eid } osd.pagamento)
      else Except.error "Atendente nao encontrado"
    else Except.ok (applyPagamentoOpt o1 osd.pagamento)
  | none => Except.ok (applyPagamentoOpt o1 osd.pagamento)

/-- `cpf_limpo` (line 410): drop dots and dashes, strip whitespace. -/
def cpfClean (c : Option String) : String :=
  (((c.getD "").replace "." "").replace "-" "").trim

/-- The CPF precondition of the update endpoint (lines 408-416). -/
def clienteCheck (patch : UpdatePatch) : Except String Unit :=
  match patch.cliente with
  | some c =>
    if cpfClean c.cpf = "" ∨ (cpfClean c.cpf).length ≠ 11 then
      Except.error "CPF do cliente e obrigatorio no update da OS e deve conter 11 digitos."
    else Except.ok ()
  | none => Except.ok ()

/-- The line items recreated by an update (lines 571-640): all prior items
are deleted unconditionally, then the `itens` and `acessorios` lists — when
their keys are present — are rebuilt in order. -/
def builtItems (patch : UpdatePatch) : List OrderItem :=
  match patch.ordem_servico with
  | none => []
  | some osd =>
    (osd.itens.getD []).map buildItemFromIten ++
      (osd.acessorios.getD []).map buildItemFromAcessorio

/-- `is_full_update` (lines 646-651): the patch carries an `itens` or an
`acessorios` key. -/
def isFullUpdate (patch : UpdatePatch) : Bool :=
  match patch.ordem_servico with
  | some osd => osd.itens.isSome || osd.acessorios.isSome
  | none => false

/-- Phases that block the auto-advance to `EM_PRODUCAO` (lines 662-668). -/
def postProductionPhases : List Phase :=
  [Phase.EM_PRODUCAO, Phase.AGUARDANDO_RETIRADA, Phase.AGUARDANDO_DEVOLUCAO,
   Phase.FINALIZADO, Phase.RECUSADA]

/-- The conditional advance of a full update (lines 653-671): requires the
`EM_PRODUCAO` phase row to exist AND the order to have a non-null phase
outside `postProductionPhases`; then move and stamp `production_date`. -/
def advanceToProducao (ctx : UpdateCtx) (o : Order) : Order :=
  if ctx.emProducaoExists then
    match o.service_order_phase with
    | some p =>
      if p ∈ postProductionPhases then o
      else saveOrder { o with service_order_phase := some Phase.EM_PRODUCAO,
                              production_date := some ctx.today }
    | none => o
  else o

/-- `ServiceOrderUpdateAPIView.put` (api_views.py lines 311-673): apply the
`ordem_servico` fields, validate the client CPF, replace the line items,
save, and conditionally advance to `EM_PRODUCAO`.  Every error return in the
handler precedes the first mutation of the store. -/
def updateOrder (ctx : UpdateCtx) (patch : UpdatePatch) (o : Order) :
    Except String Order :=
  match (match patch.ordem_servico with
         | some osd => applyOsData ctx osd o
         | none => Except.ok o) with
  | Except.error e => Except.error e
  | Except.ok o1 =>
    match clienteCheck patch with
    | Except.error e => Except.error e
    | Except.ok _ =>
      let o2 := saveOrder { o1 with items := builtItems patch }
      Except.ok (if isFullUpdate patch then advanceToProducao ctx o2 else o2)

/-- Database state after an update call (original order on rejection). -/
def updateOrderState (ctx : UpdateCtx) (patch : UpdatePatch) (o : Order) : Order :=
  match updateOrder ctx patch o with
  | Except.ok o' => o'
  | Except.error _ => o

/-- A past event (relative to the sample "today" of 0 or 10). -/
def eventYesterday : EventE := { event_date := some (-1) }

/-- A qualifying sweep target: `PENDENTE`, event passed, never retrieved. -/
def orderSweep : Order := { baseOrder with event := some eventYesterday }

/-- A store holding only `orderSweep`, with all phase rows present. -/
def stateC4 : SystemState :=
  { orders := [orderSweep], recusadaExists := true,
    aguardandoDevolucaoExists := true, aguardandoRetiradaExists := true }

/-- An overdue-devolution order: awaiting devolution, `devolucao_date`
passed, event still in the future. -/
def orderAtrasado : Order :=
  { baseOrder with
    service_order_phase := some Phase.AGUARDANDO_DEVOLUCAO,
    devolucao_date := some (-1), event := some { event_date := some 5 } }

/-- A store holding only `orderAtrasado`. -/
def stateC7 : SystemState :=
  { orders := [orderAtrasado], recusadaExists := true,
    aguardandoDevolucaoExists := true, aguardandoRetiradaExists := true }

/-- An awaiting-pickup order whose pickup date has passed. -/
def orderRetirada : Order :=
  { baseOrder with
    service_order_phase := some Phase.AGUARDANDO_RETIRADA,
    retirada_date := some (-1) }

/-- A store holding only `orderRetirada`. -/
def stateC8 : SystemState :=
  { orders := [orderRetirada], recusadaExists := true,
    aguardandoDevolucaoExists := true, aguardandoRetiradaExists := true }

/-- A retrieval-time payment of the full open balance of `orderProducao`,
paid with a method the order's `payment_method` string already contains. -/
def inpPixDup : MarkRetrievedInput :=
  { receive_remaining_payment := true, remaining_amount := none,
    payment_forms := [{ amount := 60000, forma_pagamento := "pix" }] }

/-- A sample `itens` entry of an update payload. -/
def sampleIten : ItemPayload :=
  { tipo := "terno", numero := some "42", manga := none, cor := some "preto",
    marca := none, extras := none, venda := false, ajuste := none,
    cintura := none, perna := none, ajuste_cintura := none,
    ajuste_comprimento := none }

/-- An `ordem_servico` dict whose only key is a one-item `itens` list. -/
def osDataItens : OsData :=
  { data_retirada := none, data_devolucao := none, data_prova := none,
    ocasiao := none, origem := none, modalidade := none, employee_id := none,
    pagamento := none, itens := some [sampleIten], acessorios := none }

/-- A full-update patch (carries `itens`). -/
def patchItens : UpdatePatch := { ordem_servico := some osDataItens, cliente := none }

/-- An order created in pre-triage whose phase was never assigned. -/
def orderSemFase : Order := { baseOrder with service_order_phase := none }

/-- An update context with one known person and the `EM_PRODUCAO` row. -/
def ctxUpd : UpdateCtx := { persons := [1], today := 10, emProducaoExists := true }

/-- The order produced by paying the balance of `orderProducao` at retrieval
time with a second "pix" payment. -/
def oPixDup : Order := markRetrievedState userAdmin 9 inpPixDup orderProducao

/-- Saving preserves the phase: only `remaining_payment` is recomputed. -/
@[simp] theorem saveOrder_phase (o : Order) :
    (saveOrder o).service_order_phase = o.service_order_phase := by
  rcases h1 : o.total_value with _ | t <;> rcases h2 : o.advance_payment with _ | a <;>
    simp [saveOrder, h1, h2]

@[simp] theorem saveOrder_data_devolvido (o : Order) :
    (saveOrder o).data_devolvido = o.data_devolvido := by
  rcases h1 : o.total_value with _ | t <;> rcases h2 : o.advance_payment with _ | a <;>
    simp [saveOrder, h1, h2]

@[simp] theorem saveOrder_data_finalizado (o : Order) :
    (saveOrder o).data_finalizado = o.data_finalizado := by
  rcases h1 : o.total_value with _ | t <;> rcases h2 : o.advance_payment with _ | a <;>
    simp [saveOrder, h1, h2]

@[simp] theorem saveOrder_data_retirado (o : Order) :
    (saveOrder o).data_retirado = o.data_retirado := by
  rcases h1 : o.total_value with _ | t <;> rcases h2 : o.advance_payment with _ | a <;>
    simp [saveOrder, h1, h2]

@[simp] theorem saveOrder_payment_method (o : Order) :
    (saveOrder o).payment_method = o.payment_method := by
  rcases h1 : o.total_value with _ | t <;> rcases h2 : o.advance_payment with _ | a <;>
    simp [saveOrder, h1, h2]

@[simp] theorem saveOrder_payment_details (o : Order) :
    (saveOrder o).payment_details = o.payment_details := by
  rcases h1 : o.total_value with _ | t <;> rcases h2 : o.advance_payment with _ | a <;>
    simp [saveOrder, h1, h2]

@[simp] theorem saveOrder_advance_payment (o : Order) :
    (saveOrder o).advance_payment = o.advance_payment := by
  rcases h1 : o.total_value with _ | t <;> rcases h2 : o.advance_payment with _ | a <;>
    simp [saveOrder, h1, h2]

@[simp] theorem saveOrder_total_value (o : Order) :
    (saveOrder o).total_value = o.total_value := by
  rcases h1 : o.total_value with _ | t <;> rcases h2 : o.advance_payment with _ | a <;>
    simp [saveOrder, h1, h2]

@[simp] theorem saveOrder_esta_atrasada (o : Order) :
    (saveOrder o).esta_atrasada = o.esta_atrasada := by
  rcases h1 : o.total_value with _ | t <;> rcases h2 : o.advance_payment with _ | a <;>
    simp [saveOrder, h1, h2]

@[simp] theorem saveOrder_items (o : Order) :
    (saveOrder o).items = o.items := by
  rcases h1 : o.total_value with _ | t <;> rcases h2 : o.advance_payment with _ | a <;>
    simp [saveOrder, h1, h2]

@[simp] theorem saveOrder_event (o : Order) :
    (saveOrder o).event = o.event := by
  rcases h1 : o.total_value with _ | t <;> rcases h2 : o.advance_payment with _ | a <;>
    simp [saveOrder, h1, h2]

@[simp] theorem saveOrder_retirada_date (o : Order) :
    (saveOrder o).retirada_date = o.retirada_date := by
  rcases h1 : o.total_value with _ | t <;> rcases h2 : o.advance_payment with _ | a <;>
    simp [saveOrder, h1, h2]

@[simp] theorem saveOrder_devolucao_date (o : Order) :
    (saveOrder o).devolucao_date = o.devolucao_date := by
  rcases h1 : o.total_value with _ | t <;> rcases h2 : o.advance_payment with _ | a <;>
    simp [saveOrder, h1, h2]

@[simp] theorem saveOrder_production_date (o : Order) :
    (saveOrder o).production_date = o.production_date := by
  rcases h1 : o.total_value with _ | t <;> rcases h2 : o.advance_payment with _ | a <;>
    simp [saveOrder, h1, h2]

@[simp] theorem saveOrder_justification_refusal (o : Order) :
    (saveOrder o).justification_refusal = o.justification_refusal := by
  rcases h1 : o.total_value with _ | t <;> rcases h2 : o.advance_payment with _ | a <;>
    simp [saveOrder, h1, h2]

@[simp] theorem saveOrder_is_virtual (o : Order) :
    (saveOrder o).is_virtual = o.is_virtual := by
  rcases h1 : o.total_value with _ | t <;> rcases h2 : o.advance_payment with _ | a <;>
    simp [saveOrder, h1, h2]

@[simp] theorem saveOrder_employee (o : Order) :
    (saveOrder o).employee = o.employee := by
  rcases h1 : o.total_value with _ | t <;> rcases h2 : o.advance_payment with _ | a <;>
    simp [saveOrder, h1, h2]

@[simp] theorem saveOrder_attendant (o : Order) :
    (saveOrder o).attendant = o.attendant := by
  rcases h1 : o.total_value with _ | t <;> rcases h2 : o.advance_payment with _ | a <;>
    simp [saveOrder, h1, h2]

/-- C1: For every service order, after any save operation completes, the
order's `remaining_payment` field equals `total_value` minus
`advance_payment`, computed in exact decimal arithmetic; `remaining_payment`
is never set directly by callers (whatever value the caller left in the
field before the save is overwritten). -/
theorem save_remaining_payment_invariant (o : Order) (t a : Int)
    (ht : o.total_value = some t) (ha : o.advance_payment = some a) :
    (saveOrder o).remaining_payment = some (t - a) ∧
    ∀ r : Option Int,
      (saveOrder { o with remaining_payment := r }).remaining_payment = some (t - a) := by
  constructor
  · unfold saveOrder
    rw [ht, ha]
  · intro r
    unfold saveOrder
    simp only [ht, ha]

/-- C1 witness: a concrete order with `total_value = 1000.00` and
`advance_payment = 400.00` has `remaining_payment = 600.00` after save,
regardless of the value the field held before. -/
theorem save_remaining_payment_invariant_witness :
    (saveOrder { baseOrder with
      total_value := some 100000, advance_payment := some 40000,
      remaining_payment := some 123 }).remaining_payment = some 60000 :=
  (save_remaining_payment_invariant _ 100000 40000 rfl rfl).1

/-- On a sum mismatch the remaining-payment block rejects. -/
theorem applyRemainingPayment_mismatch (now : Int) (inp : MarkRetrievedInput)
    (o : Order) (hrecv : inp.receive_remaining_payment = true)
    (hsum : sumAmounts inp.payment_forms ≠ remainingTarget inp o) :
    ∃ e, applyRemainingPayment now inp o = Except.error e := by
  unfold applyRemainingPayment
  rw [hrecv]
  by_cases hf : inp.payment_forms = [] <;> simp [hf, hsum]

/-- Every rejecting path of the mark-retrieved handler is an error. -/
theorem markRetrieved_error_of_apply_error (u : UserCtx) (now : Int)
    (inp : MarkRetrievedInput) (o : Order) (e : String)
    (he : applyRemainingPayment now inp o = Except.error e) :
    ∃ e2, markRetrieved u now inp o = Except.error e2 := by
  unfold markRetrieved
  rcases hph : o.service_order_phase with _ | ph <;> simp only [hph]
  · exact ⟨_, rfl⟩
  · by_cases h1 : ph = Phase.AGUARDANDO_DEVOLUCAO
    · simp [h1]
    · by_cases h2 : ph = Phase.FINALIZADO
      · simp [h1, h2]
      · by_cases h3 : ph = Phase.EM_PRODUCAO ∨ ph = Phase.AGUARDANDO_RETIRADA
        · by_cases h4 : authorized u o = false
          · simp [h1, h2, h3, h4]
          · simp [h1, h2, h3, h4, he]
        · simp [h1, h2, h3]

/-- C2: For every order and every MarkRetrieved call with
`receive_remaining_payment` requested, if the decimal sum of the supplied
`payment_forms` amounts does not exactly equal the remaining amount, the
call is rejected as a validation error and the order is left completely
unchanged: `advance_payment`, `payment_details`, `payment_method`, phase and
`data_retirado` all keep their prior values (no partial application). -/
theorem markRetrieved_sum_mismatch_rejected (u : UserCtx) (now : Int)
    (inp : MarkRetrievedInput) (o : Order)
    (hrecv : inp.receive_remaining_payment = true)
    (hsum : sumAmounts inp.payment_forms ≠ remainingTarget inp o) :
    (∃ e, markRetrieved u now inp o = Except.error e) ∧
    markRetrievedState u now inp o = o ∧
    (markRetrievedState u now inp o).advance_payment = o.advance_payment ∧
    (markRetrievedState u now inp o).payment_details = o.payment_details ∧
    (markRetrievedState u now inp o).payment_method = o.payment_method ∧
    (markRetrievedState u now inp o).service_order_phase = o.service_order_phase ∧
    (markRetrievedState u now inp o).data_retirado = o.data_retirado := by
  obtain ⟨e, he⟩ := applyRemainingPayment_mismatch now inp o hrecv hsum
  obtain ⟨e2, he2⟩ := markRetrieved_error_of_apply_error u now inp o e he
  have hst : markRetrievedState u now inp o = o := by
    simp [markRetrievedState, he2]
  exact ⟨⟨e2, he2⟩, hst, by rw [hst], by rw [hst], by rw [hst], by rw [hst], by rw [hst]⟩

/-- C2 witness: payment forms totalling 900.00 against a declared remaining
amount of 1000.00 are rejected and the order keeps all its fields. -/
theorem markRetrieved_sum_mismatch_rejected_witness :
    markRetrievedState userAdmin 7 inpMismatch orderProducao = orderProducao :=
  (markRetrieved_sum_mismatch_rejected userAdmin 7 inpMismatch orderProducao rfl
    (by decide)).2.1

/-- C3: For every order, MarkPaid succeeds if and only if the order's current
phase is exactly `AGUARDANDO_DEVOLUCAO` (an order already `FINALIZADO`, in
any other phase, or with no phase is rejected with no state change); on
success the phase becomes `FINALIZADO`, `data_devolvido` is stamped with the
current time and `data_finalizado` with today's date, so a second MarkPaid on
the same order is rejected.  The caller is assumed to pass the role guard the
transition table attaches to this operation. -/
theorem markPaid_phase_gate (u : UserCtx) (now today : Int) (o : Order)
    (hauth : authorized u o = true) :
    (o.service_order_phase = some Phase.AGUARDANDO_DEVOLUCAO →
      ∃ o', markPaid u now today o = Except.ok o' ∧
        o'.service_order_phase = some Phase.FINALIZADO ∧
        o'.data_devolvido = some now ∧
        o'.data_finalizado = some today ∧
        ∃ e, markPaid u now today o' = Except.error e) ∧
    (o.service_order_phase ≠ some Phase.AGUARDANDO_DEVOLUCAO →
      (∃ e, markPaid u now today o = Except.error e) ∧
      markPaidState u now today o = o) := by
  constructor
  · intro hph
    refine ⟨saveOrder { o with
        service_order_phase := some Phase.FINALIZADO,
        data_devolvido := some now,
        data_finalizado := some today }, ?_, ?_, ?_, ?_, ?_⟩
    · unfold markPaid
      rw [hph]
      simp [hauth]
    · simp
    · simp
    · simp
    · unfold markPaid
      simp
  · intro hph
    have herr : ∃ e, markPaid u now today o = Except.error e := by
      unfold markPaid
      rcases h : o.service_order_phase with _ | ph <;> simp only [h]
      · exact ⟨_, rfl⟩
      · by_cases h1 : ph = Phase.FINALIZADO
        · simp [h1]
        · have h2 : ph ≠ Phase.AGUARDANDO_DEVOLUCAO := by
            intro hc
            exact hph (hc ▸ h)
          simp [h1, h2]
    obtain ⟨e, he⟩ := herr
    exact ⟨⟨e, he⟩, by simp [markPaidState, he]⟩

/-- C3 witness: an admin marks a concrete order awaiting devolution as paid;
it finalizes with both dates stamped, and a second call is rejected. -/
theorem markPaid_phase_gate_witness :
    ∃ o', markPaid userAdmin 5 6 orderAguardandoDev = Except.ok o' ∧
      o'.service_order_phase = some Phase.FINALIZADO ∧
      o'.data_devolvido = some 5 ∧
      o'.data_finalizado = some 6 ∧
      ∃ e, markPaid userAdmin 5 6 o' = Except.error e :=
  (markPaid_phase_gate userAdmin 5 6 orderAguardandoDev (by decide)).1 rfl

/-- The sweep filter, spelled out over the order's fields. -/
theorem sweepQualifies_iff (today : Int) (o : Order) :
    sweepQualifies today o = true ↔
      (∃ ev d, o.event = some ev ∧ ev.event_date = some d ∧ d < today) ∧
      o.data_retirado = none ∧
      (o.service_order_phase = some Phase.PENDENTE ∨
       o.service_order_phase = some Phase.EM_PRODUCAO ∨
       o.service_order_phase = some Phase.AGUARDANDO_DEVOLUCAO ∨
       o.service_order_phase = some Phase.FINALIZADO ∨
       o.service_order_phase = some Phase.AGUARDANDO_RETIRADA) := by
  unfold sweepQualifies eventDateLt
  rcases hev : o.event with _ | ev
  · simp [hev]
  · rcases hed : ev.event_date with _ | d
    · simp [hev, hed]
    · rcases hph : o.service_order_phase with _ | ph
      · simp [hev, hed, hph]
      · cases ph <;> simp [hev, hed, hph, sweepPhases]

/-- A non-qualifying order is untouched by the sweep. -/
theorem sweepOrder_eq_of_not_qual (today : Int) (o : Order)
    (h : sweepQualifies today o = false) : sweepOrder today o = o := by
  simp [sweepOrder, h]

/-- C4: The auto-refuse sweep run before phase-filtered listings never
modifies an order whose phase is already `RECUSADA` and never modifies an
order with no linked event; it moves to `RECUSADA` exactly those orders in
phases `PENDENTE`, `EM_PRODUCAO`, `AGUARDANDO_DEVOLUCAO`, `FINALIZADO` or
`AGUARDANDO_RETIRADA` whose linked event date has passed and whose
`data_retirado` is null, setting the fixed client-did-not-retrieve
justification.  The `RECUSADA` phase row is assumed to exist (the sweep
looks it up with `filter(...).first()` and is a no-op otherwise). -/
theorem autoRefuse_sweep_exact (today : Int) (s : SystemState)
    (h : s.recusadaExists = true) :
    (runSweep today s).orders = s.orders.map (sweepOrder today) ∧
    ∀ o : Order,
      (o.service_order_phase = some Phase.RECUSADA → sweepOrder today o = o) ∧
      (o.event = none → sweepOrder today o = o) ∧
      (sweepOrder today o ≠ o ↔
        ((∃ ev d, o.event = some ev ∧ ev.event_date = some d ∧ d < today) ∧
         o.data_retirado = none ∧
         (o.service_order_phase = some Phase.PENDENTE ∨
          o.service_order_phase = some Phase.EM_PRODUCAO ∨
          o.service_order_phase = some Phase.AGUARDANDO_DEVOLUCAO ∨
          o.service_order_phase = some Phase.FINALIZADO ∨
          o.service_order_phase = some Phase.AGUARDANDO_RETIRADA))) ∧
      (((∃ ev d, o.event = some ev ∧ ev.event_date = some d ∧ d < today) ∧
        o.data_retirado = none ∧
        (o.service_order_phase = some Phase.PENDENTE ∨
         o.service_order_phase = some Phase.EM_PRODUCAO ∨
         o.service_order_phase = some Phase.AGUARDANDO_DEVOLUCAO ∨
         o.service_order_phase = some Phase.FINALIZADO ∨
         o.service_order_phase = some Phase.AGUARDANDO_RETIRADA)) →
        (sweepOrder today o).service_order_phase = some Phase.RECUSADA ∧
        (sweepOrder today o).justification_refusal =
          some "Cliente não retirou o produto") := by
  refine ⟨by simp [runSweep, h], fun o => ⟨?_, ?_, ?_, ?_⟩⟩
  · intro hph
    apply sweepOrder_eq_of_not_qual
    rw [Bool.eq_false_iff]
    intro hq
    rcases (sweepQualifies_iff today o).mp hq with ⟨-, -, hd⟩
    rw [hph] at hd
    rcases hd with hd | hd | hd | hd | hd <;> simp at hd
  · intro hev
    apply sweepOrder_eq_of_not_qual
    rw [Bool.eq_false_iff]
    intro hq
    rcases (sweepQualifies_iff today o).mp hq with ⟨⟨ev, d, hev2, -, -⟩, -, -⟩
    rw [hev] at hev2
    exact Option.noConfusion hev2
  · constructor
    · intro hne
      by_cases hq : sweepQualifies today o = true
      · exact (sweepQualifies_iff today o).mp hq
      · exact absurd (sweepOrder_eq_of_not_qual today o (Bool.eq_false_iff.mpr hq)) hne
    · intro hcond
      have hq := (sweepQualifies_iff today o).mpr hcond
      have hres : (sweepOrder today o).service_order_phase = some Phase.RECUSADA := by
        simp [sweepOrder, hq]
      intro heq
      rw [heq] at hres
      rcases hcond with ⟨-, -, hd⟩
      rcases hd with hd | hd | hd | hd | hd <;> rw [hd] at hres <;> simp at hres
  · intro hcond
    have hq := (sweepQualifies_iff today o).mpr hcond
    constructor
    · simp [sweepOrder, hq]
    · simp [sweepOrder, hq]

/-- C4 witness: a concrete `PENDENTE` order whose event was yesterday and
was never retrieved is moved to `RECUSADA` with the fixed justification. -/
theorem autoRefuse_sweep_exact_witness :
    (sweepOrder 0 orderSweep).service_order_phase = some Phase.RECUSADA ∧
    (sweepOrder 0 orderSweep).justification_refusal =
      some "Cliente não retirou o produto" :=
  ((autoRefuse_sweep_exact 0 stateC4 rfl).2 orderSweep).2.2.2
    ⟨⟨eventYesterday, -1, rfl, rfl, by decide⟩, rfl, Or.inl rfl⟩

/-- The `ATRASADO` filter, spelled out, when the `AGUARDANDO_DEVOLUCAO`
phase row exists. -/
theorem atrasadoQ_iff (today : Int) (o : Order) :
    atrasadoQ true today o = true ↔
      o.service_order_phase = some Phase.AGUARDANDO_DEVOLUCAO ∧
      ∃ ev d, o.event = some ev ∧ ev.event_date = some d ∧
        ((∃ dv, o.devolucao_date = some dv ∧ dv < today ∧ today < d) ∨
         (o.data_devolvido = none ∧ d < today)) := by
  unfold atrasadoQ devolucaoDateLt eventDateGt eventDateLt
  rcases hph : o.service_order_phase with _ | ph
  · simp [hph]
  · rcases hev : o.event with _ | ev
    · simp [hph, hev]
    · rcases hed : ev.event_date with _ | d
      · simp [hph, hev, hed]
      · rcases hdv : o.devolucao_date with _ | dv <;>
          rcases hdd : o.data_devolvido with _ | dd <;>
          simp [hph, hev, hed, hdv, hdd, and_or_left] <;>
          aesop

/-- C7: For every listing of the virtual `ATRASADO` phase, the returned set
is exactly the non-virtual orders in phase `AGUARDANDO_DEVOLUCAO` (after the
sweep that precedes every phase-filtered listing) with a linked event such
that either (a) `devolucao_date` is before today and the event's date is
after today, or (b) `data_devolvido` is null and the event's date is before
today; no phase change is written back for these orders by the listing: each
returned order sits unchanged in the pre-call store.  The
`AGUARDANDO_DEVOLUCAO` phase row is assumed to exist. -/
theorem listAtrasado_exact (today : Int) (s : SystemState)
    (had : s.aguardandoDevolucaoExists = true) (o : Order) :
    (o ∈ listAtrasado today s ↔
      (o ∈ (runSweep today s).orders ∧ o.is_virtual = false ∧
       o.service_order_phase = some Phase.AGUARDANDO_DEVOLUCAO ∧
       ∃ ev d, o.event = some ev ∧ ev.event_date = some d ∧
         ((∃ dv, o.devolucao_date = some dv ∧ dv < today ∧ today < d) ∨
          (o.data_devolvido = none ∧ d < today)))) ∧
    (o ∈ listAtrasado today s → o ∈ s.orders) := by
  have hmem : o ∈ listAtrasado today s ↔
      (o ∈ (runSweep today s).orders ∧ o.is_virtual = false ∧
       o.service_order_phase = some Phase.AGUARDANDO_DEVOLUCAO ∧
       ∃ ev d, o.event = some ev ∧ ev.event_date = some d ∧
         ((∃ dv, o.devolucao_date = some dv ∧ dv < today ∧ today < d) ∨
          (o.data_devolvido = none ∧ d < today))) := by
    unfold listAtrasado
    rw [List.mem_filter, had]
    simp only [Bool.and_eq_true, Bool.not_eq_true']
    rw [atrasadoQ_iff]
  refine ⟨hmem, fun hin => ?_⟩
  rcases hmem.mp hin with ⟨hruns, -, hph, -⟩
  by_cases hrec : s.recusadaExists = true
  · rw [runSweep, if_pos hrec] at hruns
    simp only [List.mem_map] at hruns
    obtain ⟨x, hx, hxo⟩ := hruns
    by_cases hq : sweepQualifies today x = true
    · exfalso
      have : (sweepOrder today x).service_order_phase = some Phase.RECUSADA := by
        simp [sweepOrder, hq]
      rw [hxo] at this
      rw [hph] at this
      simp at this
    · rw [sweepOrder_eq_of_not_qual today x (Bool.eq_false_iff.mpr hq)] at hxo
      exact hxo ▸ hx
  · rw [runSweep, if_neg hrec] at hruns
    exact hruns

/-- C7 witness: a concrete awaiting-devolution order whose devolution date
has passed while its event is still in the future is returned by the
`ATRASADO` listing and is untouched in the store. -/
theorem listAtrasado_exact_witness :
    orderAtrasado ∈ listAtrasado 0 stateC7 ∧ orderAtrasado ∈ stateC7.orders := by
  have h := listAtrasado_exact 0 stateC7 rfl orderAtrasado
  have hin : orderAtrasado ∈ listAtrasado 0 stateC7 :=
    h.1.mpr ⟨by decide, rfl, rfl,
      ⟨{ event_date := some 5 }, 5, rfl, rfl, Or.inl ⟨-1, rfl, by decide, by decide⟩⟩⟩
  exact ⟨hin, h.2 hin⟩

/-- The write-back never changes the phase. -/
theorem retiradaWriteback_phase (today : Int) (o : Order) :
    (retiradaWriteback today o).service_order_phase = o.service_order_phase := by
  unfold retiradaWriteback
  split_ifs <;> simp

/-- The write-back never changes `is_virtual`. -/
theorem retiradaWriteback_is_virtual (today : Int) (o : Order) :
    (retiradaWriteback today o).is_virtual = o.is_virtual := by
  unfold retiradaWriteback
  split_ifs <;> simp

/-- The write-back never changes `retirada_date`. -/
theorem retiradaWriteback_retirada_date (today : Int) (o : Order) :
    (retiradaWriteback today o).retirada_date = o.retirada_date := by
  unfold retiradaWriteback
  split_ifs <;> simp

/-- The write-back never changes the linked event. -/
theorem retiradaWriteback_event (today : Int) (o : Order) :
    (retiradaWriteback today o).event = o.event := by
  unfold retiradaWriteback
  split_ifs <;> simp

/-- The write-back never changes `data_retirado`. -/
theorem retiradaWriteback_data_retirado (today : Int) (o : Order) :
    (retiradaWriteback today o).data_retirado = o.data_retirado := by
  unfold retiradaWriteback
  split_ifs <;> simp

/-- Lateness only reads fields the write-back preserves. -/
theorem retiradaLate_writeback (t1 t2 : Int) (o : Order) :
    retiradaLate t2 (retiradaWriteback t1 o) = retiradaLate t2 o := by
  unfold retiradaLate retiradaDateLt eventDateLt
  rw [retiradaWriteback_retirada_date, retiradaWriteback_event,
    retiradaWriteback_data_retirado]

/-- A listed order's flag equals its recomputed lateness after write-back. -/
theorem retiradaWriteback_flag (today : Int) (o : Order)
    (h : (!o.is_virtual &&
        decide (o.service_order_phase = some Phase.AGUARDANDO_RETIRADA)) = true) :
    (retiradaWriteback today o).esta_atrasada = retiradaLate today o := by
  unfold retiradaWriteback
  rw [if_pos h]
  split_ifs with he
  · simp
  · exact not_not.mp he

/-- An unlisted order is untouched by the write-back. -/
theorem retiradaWriteback_eq_of_cond_false (today : Int) (o : Order)
    (h : ¬ ((!o.is_virtual &&
        decide (o.service_order_phase = some Phase.AGUARDANDO_RETIRADA)) = true)) :
    retiradaWriteback today o = o := by
  unfold retiradaWriteback
  rw [if_neg h]

/-- An order whose flag already matches is untouched by the write-back. -/
theorem retiradaWriteback_eq_self (today : Int) (o : Order)
    (h : o.esta_atrasada = retiradaLate today o) :
    retiradaWriteback today o = o := by
  unfold retiradaWriteback
  split_ifs with h1 h2
  · exact absurd h h2
  · rfl
  · rfl

/-- The flag write-back is idempotent on a single order. -/
theorem retiradaWriteback_idem (today : Int) (o : Order) :
    retiradaWriteback today (retiradaWriteback today o) = retiradaWriteback today o := by
  by_cases hc : (!o.is_virtual &&
      decide (o.service_order_phase = some Phase.AGUARDANDO_RETIRADA)) = true
  · apply retiradaWriteback_eq_self
    rw [retiradaWriteback_flag today o hc, retiradaLate_writeback]
  · rw [retiradaWriteback_eq_of_cond_false today o hc,
      retiradaWriteback_eq_of_cond_false today o hc]

/-- A swept order never qualifies for the sweep again. -/
theorem sweepOrder_idem_qual (today : Int) (o : Order) :
    sweepQualifies today (sweepOrder today o) = false := by
  by_cases hq : sweepQualifies today o = true
  · rw [Bool.eq_false_iff]
    intro h2
    rcases (sweepQualifies_iff today _).mp h2 with ⟨-, -, hd⟩
    have hres : (sweepOrder today o).service_order_phase = some Phase.RECUSADA := by
      simp [sweepOrder, hq]
    rcases hd with hd | hd | hd | hd | hd <;> rw [hd] at hres <;> simp at hres
  · rw [sweepOrder_eq_of_not_qual today o (Bool.eq_false_iff.mpr hq)]
    exact Bool.eq_false_iff.mpr hq

/-- The sweep is idempotent on a single order. -/
theorem sweepOrder_idem (today : Int) (o : Order) :
    sweepOrder today (sweepOrder today o) = sweepOrder today o :=
  sweepOrder_eq_of_not_qual today _ (sweepOrder_idem_qual today o)

/-- The sweep filter only reads fields the write-back preserves. -/
theorem sweepQualifies_writeback (t1 t2 : Int) (o : Order) :
    sweepQualifies t2 (retiradaWriteback t1 o) = sweepQualifies t2 o := by
  unfold sweepQualifies eventDateLt
  rw [retiradaWriteback_event, retiradaWriteback_data_retirado,
    retiradaWriteback_phase]

/-- Closed form of the `AGUARDANDO_RETIRADA` listing's state effect. -/
theorem listRetiradaState_closed (today : Int) (s : SystemState) :
    listRetiradaState today s =
      { s with orders :=
          if s.aguardandoRetiradaExists then
            ((if s.recusadaExists then s.orders.map (sweepOrder today)
              else s.orders).map (retiradaWriteback today))
          else (if s.recusadaExists then s.orders.map (sweepOrder today)
                else s.orders) } := by
  obtain ⟨l, r, ad, ar⟩ := s
  unfold listRetiradaState runSweep
  cases r <;> cases ar <;> simp

/-- Sweep-then-write-back applied twice equals applying it once. -/
theorem sweep_wb_pointwise (today : Int) (x : Order) :
    retiradaWriteback today (sweepOrder today (retiradaWriteback today
      (sweepOrder today x))) = retiradaWriteback today (sweepOrder today x) := by
  rw [sweepOrder_eq_of_not_qual today _
    (by rw [sweepQualifies_writeback]; exact sweepOrder_idem_qual today x),
    retiradaWriteback_idem]

/-- Lateness of an `AGUARDANDO_RETIRADA` order, spelled out. -/
theorem retiradaLate_iff (today : Int) (o : Order) :
    retiradaLate today o = true ↔
      (∃ d, o.retirada_date = some d ∧ d < today) ∨
      ((∃ ev d, o.event = some ev ∧ ev.event_date = some d ∧ d < today) ∧
        o.data_retirado = none) := by
  unfold retiradaLate retiradaDateLt eventDateLt
  rcases h1 : o.retirada_date with _ | rd
  · rcases h2 : o.event with _ | ev
    · simp [h1, h2]
    · rcases h3 : ev.event_date with _ | d <;> simp [h1, h2, h3]
  · rcases h2 : o.event with _ | ev
    · simp [h1, h2]
    · rcases h3 : ev.event_date with _ | d <;> simp [h1, h2, h3]

/-- C8: For every order in phase `AGUARDANDO_RETIRADA`, listing that phase
sets the persisted `esta_atrasada` flag to true exactly when `retirada_date`
is before today or the linked event's date has passed with `data_retirado`
still null; calling the listing twice in succession with no intervening
state change yields the same `esta_atrasada` flags both times (the
write-back is idempotent — indeed the whole state effect is). -/
theorem listRetirada_flags_idempotent (today : Int) (s : SystemState) :
    (∀ o ∈ (listRetiradaState today s).orders,
      s.aguardandoRetiradaExists = true →
      o.is_virtual = false →
      o.service_order_phase = some Phase.AGUARDANDO_RETIRADA →
      (o.esta_atrasada = true ↔
        (∃ d, o.retirada_date = some d ∧ d < today) ∨
        ((∃ ev d, o.event = some ev ∧ ev.event_date = some d ∧ d < today) ∧
          o.data_retirado = none))) ∧
    listRetiradaState today (listRetiradaState today s) = listRetiradaState today s := by
  constructor
  · intro o hmem har hvirt hph
    rw [listRetiradaState_closed, har, if_pos rfl] at hmem
    simp only [List.mem_map] at hmem
    obtain ⟨y, hy, hyo⟩ := hmem
    have hcy : (!y.is_virtual &&
        decide (y.service_order_phase = some Phase.AGUARDANDO_RETIRADA)) = true := by
      by_contra hcy
      rw [retiradaWriteback_eq_of_cond_false today y hcy] at hyo
      subst hyo
      exact hcy (by simp [hvirt, hph])
    have hflag : o.esta_atrasada = retiradaLate today y := by
      rw [← hyo]
      exact retiradaWriteback_flag today y hcy
    have hlate : retiradaLate today o = retiradaLate today y := by
      rw [← hyo, retiradaLate_writeback]
    have hfo : o.esta_atrasada = retiradaLate today o := by
      rw [hflag, hlate]
    rw [hfo, retiradaLate_iff]
  · obtain ⟨l, r, ad, ar⟩ := s
    rw [listRetiradaState_closed, listRetiradaState_closed]
    cases r <;> cases ar <;>
      simp [sweepOrder_idem, retiradaWriteback_idem, sweep_wb_pointwise]

/-- C8 witness: in a concrete store holding one awaiting-pickup order whose
pickup date has passed, the listing flags it late, and repeating the listing
changes nothing. -/
theorem listRetirada_flags_idempotent_witness :
    (retiradaWriteback 0 orderRetirada).esta_atrasada = true ∧
    listRetiradaState 0 (listRetiradaState 0 stateC8) = listRetiradaState 0 stateC8 :=
  ⟨((listRetirada_flags_idempotent 0 stateC8).1 (retiradaWriteback 0 orderRetirada)
      (by decide) rfl (by decide) (by decide)).mpr
      (Or.inl ⟨-1, by decide, by decide⟩),
    (listRetirada_flags_idempotent 0 stateC8).2⟩

/-- The method accumulator appends, after `acc`, a subsequence of the
incoming methods none of which was already in `acc`. -/
theorem dedupAux_decomp (fs : List PaymentForm) (acc : List String) :
    ∃ l, dedupAux acc fs = acc ++ l ∧
      l.Sublist (fs.map PaymentForm.forma_pagamento) ∧
      ∀ m ∈ l, m ∉ acc := by
  induction fs generalizing acc with
  | nil => exact ⟨[], by simp [dedupAux], List.nil_sublist _, by simp⟩
  | cons f fs ih =>
    by_cases hm : f.forma_pagamento ∈ acc
    · obtain ⟨l, h1, h2, h3⟩ := ih acc
      exact ⟨l, by simp [dedupAux, hm, h1], h2.trans (List.sublist_cons_self _ _), h3⟩
    · obtain ⟨l, h1, h2, h3⟩ := ih (acc ++ [f.forma_pagamento])
      refine ⟨f.forma_pagamento :: l, ?_, ?_, ?_⟩
      · simp [dedupAux, hm, h1]
      · exact List.Sublist.cons₂ _ h2
      · intro m hm2
        rcases List.mem_cons.mp hm2 with rfl | hm3
        · exact hm
        · exact fun hacc => h3 m hm3 (List.mem_append_left _ hacc)

/-- The method accumulator keeps `acc` duplicate-free. -/
theorem dedupAux_nodup (fs : List PaymentForm) (acc : List String)
    (hacc : acc.Nodup) : (dedupAux acc fs).Nodup := by
  induction fs generalizing acc with
  | nil => simpa [dedupAux]
  | cons f fs ih =>
    by_cases hm : f.forma_pagamento ∈ acc
    · rw [dedupAux, if_pos hm]
      exact ih acc hacc
    · rw [dedupAux, if_neg hm]
      apply ih
      simp [List.nodup_append, hacc, hm]

/-- Elements of the method accumulator. -/
theorem dedupAux_mem (fs : List PaymentForm) (acc : List String) (m : String) :
    m ∈ dedupAux acc fs ↔ m ∈ acc ∨ m ∈ fs.map PaymentForm.forma_pagamento := by
  induction fs generalizing acc with
  | nil => simp [dedupAux]
  | cons f fs ih =>
    by_cases hm : f.forma_pagamento ∈ acc
    · rw [dedupAux, if_pos hm, ih]
      simp only [List.map_cons, List.mem_cons]
      constructor
      · rintro (h | h)
        · exact Or.inl h
        · exact Or.inr (Or.inr h)
      · rintro (h | h | h)
        · exact Or.inl h
        · exact Or.inl (h ▸ hm)
        · exact Or.inr h
    · rw [dedupAux, if_neg hm, ih]
      simp only [List.mem_append, List.mem_singleton, List.map_cons, List.mem_cons]
      tauto

/-- The deduplicated methods list has no duplicates. -/
theorem dedupFormas_nodup (fs : List PaymentForm) : (dedupFormas fs).Nodup :=
  dedupAux_nodup fs [] List.nodup_nil

/-- The deduplicated methods list preserves the forms' insertion order. -/
theorem dedupFormas_sublist (fs : List PaymentForm) :
    (dedupFormas fs).Sublist (fs.map PaymentForm.forma_pagamento) := by
  obtain ⟨l, h1, h2, -⟩ := dedupAux_decomp fs []
  rw [dedupFormas, h1]
  simpa using h2

/-- The deduplicated methods list keeps exactly the supplied methods. -/
theorem dedupFormas_mem (fs : List PaymentForm) (m : String) :
    m ∈ dedupFormas fs ↔ m ∈ fs.map PaymentForm.forma_pagamento := by
  rw [dedupFormas, dedupAux_mem]
  simp

/-- What a successful remaining-payment application did. -/
theorem applyRemainingPayment_ok_elim (now : Int) (inp : MarkRetrievedInput)
    (o o2 : Order) (hrecv : inp.receive_remaining_payment = true)
    (h : applyRemainingPayment now inp o = Except.ok o2) :
    inp.payment_forms ≠ [] ∧
    sumAmounts inp.payment_forms = remainingTarget inp o ∧
    o2 = { o with
      advance_payment := some (pyOrD o.advance_payment 0 + sumAmounts inp.payment_forms),
      payment_details :=
        some (o.payment_details.getD [] ++ inp.payment_forms.map (restanteEntry now)),
      payment_method := some (mergeMethods o.payment_method (dedupFormas inp.payment_forms)) } := by
  unfold applyRemainingPayment at h
  rw [hrecv] at h
  by_cases h1 : inp.payment_forms = []
  · rw [if_neg (by simp), if_pos h1] at h
    exact absurd h (by simp)
  · by_cases h2 : sumAmounts inp.payment_forms = remainingTarget inp o
    · rw [if_neg (by simp), if_neg h1, if_neg (by simp [h2])] at h
      refine ⟨h1, h2, ?_⟩
      injection h with h3
      exact h3.symm
    · rw [if_neg (by simp), if_neg h1, if_pos h2] at h
      exact absurd h (by simp)

/-- What a successful mark-retrieved call did. -/
theorem markRetrieved_ok_elim (u : UserCtx) (now : Int) (inp : MarkRetrievedInput)
    (o o' : Order) (hok : markRetrieved u now inp o = Except.ok o') :
    ∃ o2, applyRemainingPayment now inp o = Except.ok o2 ∧
      o' = saveOrder { o2 with
        service_order_phase := some Phase.AGUARDANDO_DEVOLUCAO,
        data_retirado := some now } := by
  unfold markRetrieved at hok
  rcases hph : o.service_order_phase with _ | ph <;> rw [hph] at hok <;>
    dsimp only at hok
  · exact absurd hok (by simp)
  · by_cases h1 : ph = Phase.AGUARDANDO_DEVOLUCAO
    · rw [if_pos h1] at hok
      exact absurd hok (by simp)
    · rw [if_neg h1] at hok
      by_cases h2 : ph = Phase.FINALIZADO
      · rw [if_pos h2] at hok
        exact absurd hok (by simp)
      · rw [if_neg h2] at hok
        by_cases h3 : ph = Phase.EM_PRODUCAO ∨ ph = Phase.AGUARDANDO_RETIRADA
        · rw [if_neg (not_not_intro h3)] at hok
          by_cases h4 : authorized u o = false
          · rw [if_pos h4] at hok
            exact absurd hok (by simp)
          · rw [if_neg h4] at hok
            rcases happ : applyRemainingPayment now inp o with e | o2 <;>
              rw [happ] at hok
            · exact absurd hok (by simp)
            · refine ⟨o2, rfl, ?_⟩
              injection hok with h5
              exact h5.symm
        · rw [if_pos h3] at hok
          exact absurd hok (by simp)

/-- C5 counterexample: `orderProducao` already carries `payment_method =
"pix"`; receiving the 600.00 balance with a single "pix" form yields
`payment_method = "pix, pix"` — the method list now contains a duplicate,
refuting the claim that the merge deduplicates against methods already
present in the string before the call. -/
theorem markRetrieved_merge_dedup_counterexample :
    (markRetrieved userAdmin 9 inpPixDup orderProducao).toOption.map
        Order.payment_method = some (some "pix, pix") ∧
    "pix, pix" = "pix" ++ ", " ++ "pix" ∧
    (markRetrieved userAdmin 9 inpPixDup orderProducao).toOption.map
        Order.payment_method ≠ some (some "pix") := by
  exact ⟨rfl, rfl, by decide⟩

/-- C5 (amended): For every order and every successful MarkRetrieved call
that receives the remaining payment, the payment methods of the supplied
`payment_forms` are deduplicated among themselves (case-sensitive, first
occurrences, insertion order preserved) and the resulting comma-joined
string is appended after the order's prior `payment_method` string (when
truthy) WITHOUT deduplicating against the methods already present there. -/
theorem markRetrieved_merge_formula (u : UserCtx) (now : Int)
    (inp : MarkRetrievedInput) (o o' : Order)
    (hok : markRetrieved u now inp o = Except.ok o')
    (hrecv : inp.receive_remaining_payment = true) :
    (dedupFormas inp.payment_forms).Nodup ∧
    (dedupFormas inp.payment_forms).Sublist
      (inp.payment_forms.map PaymentForm.forma_pagamento) ∧
    (∀ m, m ∈ dedupFormas inp.payment_forms ↔
      m ∈ inp.payment_forms.map PaymentForm.forma_pagamento) ∧
    o'.payment_method =
      some (mergeMethods o.payment_method (dedupFormas inp.payment_forms)) ∧
    ∀ t, o.payment_method = some t → t ≠ "" →
      o'.payment_method =
        some (t ++ ", " ++ String.intercalate ", " (dedupFormas inp.payment_forms)) := by
  obtain ⟨o2, happ, ho'⟩ := markRetrieved_ok_elim u now inp o o' hok
  obtain ⟨-, -, ho2⟩ := applyRemainingPayment_ok_elim now inp o o2 hrecv happ
  have hpm : o'.payment_method =
      some (mergeMethods o.payment_method (dedupFormas inp.payment_forms)) := by
    rw [ho', saveOrder_payment_method]
    rw [show ({ o2 with
        service_order_phase := some Phase.AGUARDANDO_DEVOLUCAO,
        data_retirado := some now } : Order).payment_method = o2.payment_method from rfl]
    rw [ho2]
  refine ⟨dedupFormas_nodup _, dedupFormas_sublist _, fun m => dedupFormas_mem _ m,
    hpm, ?_⟩
  intro t ht hne
  rw [hpm, ht]
  simp [mergeMethods, hne]

/-- C5 witness: the duplicate-pix run follows the amended merge formula. -/
theorem markRetrieved_merge_formula_witness :
    oPixDup.payment_method =
      some (mergeMethods orderProducao.payment_method
        (dedupFormas inpPixDup.payment_forms)) :=
  (markRetrieved_merge_formula userAdmin 9 inpPixDup orderProducao oPixDup rfl
    rfl).2.2.2.1

/-- C9: For every MarkRetrieved call with `receive_remaining_payment` true,
when the caller omits `remaining_amount` (or supplies null or zero), the
target amount the `payment_forms` sum is checked against defaults to the
order's stored `remaining_payment`, and to zero when that field is also
null; an explicit non-zero `remaining_amount` supplied by the caller
overrides the stored value.  The success of the call (for an authorized
caller, a valid phase and a non-empty forms list) is equivalent to the sum
hitting that target. -/
theorem markRetrieved_remaining_default (u : UserCtx) (now : Int)
    (inp : MarkRetrievedInput) (o : Order)
    (hrecv : inp.receive_remaining_payment = true)
    (hph : o.service_order_phase = some Phase.EM_PRODUCAO)
    (hauth : authorized u o = true)
    (hforms : inp.payment_forms ≠ []) :
    ((inp.remaining_amount = none ∨ inp.remaining_amount = some 0) →
      remainingTarget inp o = o.remaining_payment.getD 0) ∧
    ((inp.remaining_amount = none ∨ inp.remaining_amount = some 0) →
      o.remaining_payment = none → remainingTarget inp o = 0) ∧
    (∀ r : Int, inp.remaining_amount = some r → r ≠ 0 →
      remainingTarget inp o = r) ∧
    ((∃ o', markRetrieved u now inp o = Except.ok o') ↔
      sumAmounts inp.payment_forms = remainingTarget inp o) := by
  refine ⟨?_, ?_, ?_, ?_⟩
  · rintro (h | h) <;> rw [remainingTarget, h] <;>
      rcases hr : o.remaining_payment with _ | v <;>
      simp [pyOrD, hr] <;> omega
  · rintro (h | h) hnone <;> simp [remainingTarget, pyOrD, h, hnone]
  · intro r hr hne
    simp [remainingTarget, pyOrD, hr, hne]
  · constructor
    · rintro ⟨o', hok⟩
      obtain ⟨o2, happ, -⟩ := markRetrieved_ok_elim u now inp o o' hok
      exact (applyRemainingPayment_ok_elim now inp o o2 hrecv happ).2.1
    · intro hsum
      have happ : applyRemainingPayment now inp o = Except.ok { o with
          advance_payment :=
            some (pyOrD o.advance_payment 0 + sumAmounts inp.payment_forms),
          payment_details :=
            some (o.payment_details.getD [] ++
              inp.payment_forms.map (restanteEntry now)),
          payment_method :=
            some (mergeMethods o.payment_method (dedupFormas inp.payment_forms)) } := by
        unfold applyRemainingPayment
        rw [hrecv]
        rw [if_neg (by simp), if_neg hforms, if_neg (by simp [hsum])]
      unfold markRetrieved
      rw [hph]
      dsimp only
      rw [if_neg (by decide), if_neg (by decide), if_neg (by simp),
        if_neg (by simp [hauth]), happ]
      exact ⟨_, rfl⟩

/-- C9 witness: a null `remaining_amount` falls back to the stored
`remaining_payment` (600.00) and the matching concrete payment succeeds. -/
theorem markRetrieved_remaining_default_witness :
    remainingTarget inpPixDup orderProducao =
      Option.getD orderProducao.remaining_payment 0 ∧
    ∃ o', markRetrieved userAdmin 9 inpPixDup orderProducao = Except.ok o' := by
  have h := markRetrieved_remaining_default userAdmin 9 inpPixDup orderProducao
    rfl rfl (by decide) (by decide)
  exact ⟨h.1 (Or.inl rfl), h.2.2.2.mpr (by decide)⟩

/-- The date assignments never touch phase or production date. -/
theorem applyDates_frame (osd : OsData) (o : Order) :
    (applyDates osd o).service_order_phase = o.service_order_phase ∧
    (applyDates osd o).production_date = o.production_date := by
  unfold applyDates
  rcases h1 : osd.data_retirada with _ | a <;>
    rcases h2 : osd.data_devolucao with _ | b <;>
    rcases h3 : osd.data_prova with _ | c <;>
    simp [h1, h2, h3]

/-- The label/modalidade assignments never touch phase or production date. -/
theorem applyBasics_frame (osd : OsData) (o : Order) :
    (applyBasics osd o).service_order_phase = o.service_order_phase ∧
    (applyBasics osd o).production_date = o.production_date := by
  unfold applyBasics
  rcases h1 : osd.ocasiao with _ | s1 <;>
    rcases h2 : osd.origem with _ | s2 <;>
    rcases h3 : osd.modalidade with _ | m <;>
    simp [h1, h2, h3] <;>
    split_ifs <;> simp

/-- The sinal-dict branch never touches phase or production date. -/
theorem applySinalDict_frame (o : Order) (tt : Option Int)
    (pp : Option (List SinalPag)) :
    (applySinalDict o tt pp).service_order_phase = o.service_order_phase ∧
    (applySinalDict o tt pp).production_date = o.production_date := by
  unfold applySinalDict
  rcases tt with _ | t <;> rcases pp with _ | pags <;>
    first
      | exact ⟨rfl, rfl⟩
      | (dsimp only; split_ifs <;> exact ⟨rfl, rfl⟩)

/-- The sinal value never touches phase or production date. -/
theorem applySinal_frame (o : Order) (sd : SinalData) :
    (applySinal o sd).service_order_phase = o.service_order_phase ∧
    (applySinal o sd).production_date = o.production_date := by
  cases sd with
  | dict tt pp => exact applySinalDict_frame o tt pp
  | num v => exact ⟨rfl, rfl⟩

/-- The total assignment never touches phase or production date. -/
theorem applyPagTotal_frame (o : Order) (pg : PagamentoData) :
    (applyPagTotal o pg).service_order_phase = o.service_order_phase ∧
    (applyPagTotal o pg).production_date = o.production_date := by
  unfold applyPagTotal
  rcases h : pg.total with _ | t <;> simp [h]

/-- The sinal key never touches phase or production date. -/
theorem applyPagSinal_frame (o : Order) (pg : PagamentoData) :
    (applyPagSinal o pg).service_order_phase = o.service_order_phase ∧
    (applyPagSinal o pg).production_date = o.production_date := by
  unfold applyPagSinal
  rcases h : pg.sinal with _ | sd
  · simp [h]
  · simp only [h]
    exact applySinal_frame o sd

/-- The forma override never touches phase or production date. -/
theorem applyPagForma_frame (o : Order) (pg : PagamentoData) :
    (applyPagForma o pg).service_order_phase = o.service_order_phase ∧
    (applyPagForma o pg).production_date = o.production_date := by
  unfold applyPagForma
  rcases h : pg.forma_pagamento with _ | f
  · simp [h]
  · simp only [h]
    try dsimp only
    split_ifs <;> exact ⟨rfl, rfl⟩

/-- The whole payment block never touches phase or production date. -/
theorem applyPagamento_frame (o : Order) (pg : PagamentoData) :
    (applyPagamento o pg).service_order_phase = o.service_order_phase ∧
    (applyPagamento o pg).production_date = o.production_date := by
  unfold applyPagamento
  obtain ⟨hf1, hf2⟩ := applyPagForma_frame (applyPagSinal (applyPagTotal o pg) pg) pg
  obtain ⟨hs1, hs2⟩ := applyPagSinal_frame (applyPagTotal o pg) pg
  obtain ⟨ht1, ht2⟩ := applyPagTotal_frame o pg
  exact ⟨hf1.trans (hs1.trans ht1), hf2.trans (hs2.trans ht2)⟩

/-- The optional payment block never touches phase or production date. -/
theorem applyPagamentoOpt_frame (o : Order) (pg : Option PagamentoData) :
    (applyPagamentoOpt o pg).service_order_phase = o.service_order_phase ∧
    (applyPagamentoOpt o pg).production_date = o.production_date := by
  unfold applyPagamentoOpt
  rcases pg with _ | p
  · exact ⟨rfl, rfl⟩
  · exact applyPagamento_frame o p

/-- A successful `ordem_servico` application never touches phase or
production date. -/
theorem applyOsData_ok_frame (ctx : UpdateCtx) (osd : OsData) (o o1 : Order)
    (h : applyOsData ctx osd o = Except.ok o1) :
    o1.service_order_phase = o.service_order_phase ∧
    o1.production_date = o.production_date := by
  have hpre := applyBasics_frame osd (applyDates osd o)
  have hpre2 := applyDates_frame osd o
  unfold applyOsData at h
  rcases h4 : osd.employee_id with _ | eid <;> rw [h4] at h <;> dsimp only at h
  · injection h with h5
    obtain ⟨hp1, hp2⟩ :=
      applyPagamentoOpt_frame (applyBasics osd (applyDates osd o)) osd.pagamento
    rw [← h5]
    exact ⟨hp1.trans (hpre.1.trans hpre2.1), hp2.trans (hpre.2.trans hpre2.2)⟩
  · by_cases he1 : eid ≠ 0
    · rw [if_pos he1] at h
      by_cases he2 : eid ∈ ctx.persons
      · rw [if_pos he2] at h
        injection h with h5
        obtain ⟨hp1, hp2⟩ := applyPagamentoOpt_frame
          { applyBasics osd (applyDates osd o) with employee := some eid }
          osd.pagamento
        rw [← h5]
        exact ⟨hp1.trans (hpre.1.trans hpre2.1), hp2.trans (hpre.2.trans hpre2.2)⟩
      · rw [if_neg he2] at h
        exact absurd h (by simp)
    · rw [if_neg he1] at h
      injection h with h5
      obtain ⟨hp1, hp2⟩ :=
        applyPagamentoOpt_frame (applyBasics osd (applyDates osd o)) osd.pagamento
      rw [← h5]
      exact ⟨hp1.trans (hpre.1.trans hpre2.1), hp2.trans (hpre.2.trans hpre2.2)⟩

/-- The conditional advance never touches the line items. -/
theorem advanceToProducao_items (ctx : UpdateCtx) (o : Order) :
    (advanceToProducao ctx o).items = o.items := by
  unfold advanceToProducao
  split
  · rcases hph : o.service_order_phase with _ | p
    · simp only [hph]
    · simp only [hph]
      split_ifs <;> simp
  · rfl

/-- A phase-less order is not advanced. -/
theorem advanceToProducao_phase_none (ctx : UpdateCtx) (o : Order)
    (h : o.service_order_phase = none) : advanceToProducao ctx o = o := by
  unfold advanceToProducao
  split
  · simp only [h]
  · rfl

/-- An order already in a post-production phase is not advanced. -/
theorem advanceToProducao_phase_post (ctx : UpdateCtx) (o : Order) (p : Phase)
    (hp : o.service_order_phase = some p) (hpost : p ∈ postProductionPhases) :
    advanceToProducao ctx o = o := by
  unfold advanceToProducao
  split
  · simp only [hp]
    rw [if_pos hpost]
  · rfl

/-- With the `EM_PRODUCAO` row present, an order with a set phase outside the
post-production set is advanced and stamped. -/
theorem advanceToProducao_phase_adv (ctx : UpdateCtx) (o : Order) (p : Phase)
    (hreg : ctx.emProducaoExists = true)
    (hp : o.service_order_phase = some p) (hpost : p ∉ postProductionPhases) :
    advanceToProducao ctx o = saveOrder { o with
      service_order_phase := some Phase.EM_PRODUCAO,
      production_date := some ctx.today } := by
  unfold advanceToProducao
  rw [if_pos hreg]
  simp only [hp]
  rw [if_neg hpost]

/-- What a successful update did. -/
theorem updateOrder_ok_elim (ctx : UpdateCtx) (patch : UpdatePatch) (o o' : Order)
    (hok : updateOrder ctx patch o = Except.ok o') :
    ∃ o1, (match patch.ordem_servico with
           | some osd => applyOsData ctx osd o = Except.ok o1
           | none => o1 = o) ∧
      o' = (if isFullUpdate patch
            then advanceToProducao ctx (saveOrder { o1 with items := builtItems patch })
            else saveOrder { o1 with items := builtItems patch }) := by
  unfold updateOrder at hok
  rcases hos : patch.ordem_servico with _ | osd
  · rw [hos] at hok
    simp only [hos]
    dsimp only at hok
    rcases hcc : clienteCheck patch with e | u2 <;> rw [hcc] at hok <;>
      dsimp only at hok
    · exact absurd hok (by simp)
    · refine ⟨o, rfl, ?_⟩
      injection hok with h
      exact h.symm
  · rw [hos] at hok
    simp only [hos]
    dsimp only at hok
    rcases happ : applyOsData ctx osd o with e | o1 <;> rw [happ] at hok <;>
      dsimp only at hok
    · exact absurd hok (by simp)
    · rcases hcc : clienteCheck patch with e | u2 <;> rw [hcc] at hok <;>
        dsimp only at hok
      · exact absurd hok (by simp)
      · refine ⟨o1, rfl, ?_⟩
        injection hok with h
        exact h.symm

/-- C6 counterexample: a full update (a patch whose `itens` key carries a
line item) of an order whose phase is unset succeeds but leaves the phase
unset and stamps no `production_date` — the handler only advances when
`service_order.service_order_phase` is non-null (api_views.py line 659),
refuting the claim that a phase-less order is advanced to `EM_PRODUCAO`. -/
theorem update_full_semfase_counterexample :
    updateOrder ctxUpd patchItens orderSemFase =
      Except.ok (updateOrderState ctxUpd patchItens orderSemFase) ∧
    (updateOrderState ctxUpd patchItens orderSemFase).service_order_phase = none ∧
    (updateOrderState ctxUpd patchItens orderSemFase).service_order_phase ≠
      some Phase.EM_PRODUCAO ∧
    (updateOrderState ctxUpd patchItens orderSemFase).production_date = none := by
  exact ⟨rfl, rfl, by decide, rfl⟩

/-- C6 (amended): For every order and every full update (a patch containing
line items), if the order's current phase is SET and not one of
`EM_PRODUCAO`, `AGUARDANDO_RETIRADA`, `AGUARDANDO_DEVOLUCAO`, `FINALIZADO`,
`RECUSADA` — and the `EM_PRODUCAO` phase row exists — the update advances
the phase to `EM_PRODUCAO` and stamps `production_date` with today's date;
an order whose phase is unset keeps its unset phase (and its
`production_date`); orders already in those phases keep their phase. -/
theorem update_full_advances_phase (ctx : UpdateCtx) (patch : UpdatePatch)
    (o o' : Order) (hok : updateOrder ctx patch o = Except.ok o')
    (hfull : isFullUpdate patch = true)
    (hreg : ctx.emProducaoExists = true) :
    (o.service_order_phase = none →
      o'.service_order_phase = none ∧ o'.production_date = o.production_date) ∧
    (∀ p : Phase, o.service_order_phase = some p → p ∉ postProductionPhases →
      o'.service_order_phase = some Phase.EM_PRODUCAO ∧
      o'.production_date = some ctx.today) ∧
    (∀ p : Phase, o.service_order_phase = some p → p ∈ postProductionPhases →
      o'.service_order_phase = some p ∧
      o'.production_date = o.production_date) := by
  obtain ⟨o1, h1, ho'⟩ := updateOrder_ok_elim ctx patch o o' hok
  have hfr : o1.service_order_phase = o.service_order_phase ∧
      o1.production_date = o.production_date := by
    rcases hos : patch.ordem_servico with _ | osd <;> rw [hos] at h1
    · rw [h1]
      exact ⟨rfl, rfl⟩
    · exact applyOsData_ok_frame ctx osd o o1 h1
  rw [if_pos hfull] at ho'
  have ho2phase : (saveOrder { o1 with items := builtItems patch }).service_order_phase
      = o.service_order_phase := by
    rw [saveOrder_phase]
    exact hfr.1
  have ho2prod : (saveOrder { o1 with items := builtItems patch }).production_date
      = o.production_date := by
    rw [saveOrder_production_date]
    exact hfr.2
  refine ⟨?_, ?_, ?_⟩
  · intro hnone
    rw [ho', advanceToProducao_phase_none ctx _ (ho2phase.trans hnone)]
    exact ⟨ho2phase.trans hnone, ho2prod⟩
  · intro p hp hnp
    rw [ho', advanceToProducao_phase_adv ctx _ p hreg (ho2phase.trans hp) hnp]
    constructor <;> simp
  · intro p hp hpost
    rw [ho', advanceToProducao_phase_post ctx _ p (ho2phase.trans hp) hpost]
    exact ⟨ho2phase.trans hp, ho2prod⟩

/-- C6 witness: a full update of a concrete `PENDENTE` order advances it to
`EM_PRODUCAO` and stamps `production_date` with today (10). -/
theorem update_full_advances_phase_witness :
    (updateOrderState ctxUpd patchItens baseOrder).service_order_phase =
      some Phase.EM_PRODUCAO ∧
    (updateOrderState ctxUpd patchItens baseOrder).production_date = some 10 :=
  (update_full_advances_phase ctxUpd patchItens baseOrder
    (updateOrderState ctxUpd patchItens baseOrder) rfl rfl rfl).2.1
    Phase.PENDENTE rfl (by decide)

/-- C10: For every UpdateOrder call that passes validation, all of the
order's existing line items are deleted before any new ones are created,
unconditionally — an update whose patch contains no `itens` and no
`acessorios` keys leaves the order with zero line items, and after any
update the order's items are exactly those built from the patch's `itens`
and `acessorios` lists. -/
theorem update_replaces_items (ctx : UpdateCtx) (patch : UpdatePatch)
    (o o' : Order) (hok : updateOrder ctx patch o = Except.ok o') :
    o'.items = builtItems patch ∧
    ((∀ osd, patch.ordem_servico = some osd →
        osd.itens = none ∧ osd.acessorios = none) → o'.items = []) := by
  obtain ⟨o1, -, ho'⟩ := updateOrder_ok_elim ctx patch o o' hok
  have hitems : o'.items = builtItems patch := by
    rw [ho']
    split_ifs
    · rw [advanceToProducao_items]
      simp
    · simp
  refine ⟨hitems, fun hk => ?_⟩
  rw [hitems]
  unfold builtItems
  rcases hos : patch.ordem_servico with _ | osd
  · rfl
  · obtain ⟨hi, ha⟩ := hk osd hos
    simp [hi, ha]

/-- C10 witness: the concrete full update replaces the items with exactly
those built from the patch. -/
theorem update_replaces_items_witness :
    (updateOrderState ctxUpd patchItens baseOrder).items = builtItems patchItens :=
  (update_replaces_items ctxUpd patchItens baseOrder
    (updateOrderState ctxUpd patchItens baseOrder) rfl).1
